import Mathlib

/-!
Verification development for the `LetsAIPythonREPLComponent` of
`src/backend/base/langflow/components/processing/letsai_python_repl_core.py`.

The component's two methods, `get_globals` and `run_python_repl`, are embedded
shallowly below.  Python dictionaries with string keys are modelled as
association lists with Python's `dict.__setitem__` / `dict.update` semantics
(`dictSet` / `dictUpdate`).  The three external collaborators the component
calls — `importlib.import_module`, `ast.literal_eval` and
`langchain_experimental`'s `PythonREPL.run` — are not code of this repository;
they are modelled as an opaque environment (`Env`) of functions that either
return a value or raise a classified Python exception, and every theorem
quantifies over that environment.
-/

/-- A Python runtime value, as far as the component manipulates them:
module handles are opaque (identified by name), scalar params are numbers,
the dynamic literal parses to nested lists/dicts, and `None` or any other
shape can arrive through the `params` input. -/
inductive PyVal where
  | none
  | int (n : Int)
  | str (s : String)
  | module (name : String)
  | list (xs : List PyVal)
  | dict (d : List (String × PyVal))

/-- The Python exception classes that `run_python_repl`'s `except` clauses
distinguish: the five-member tuple `(ImportError, SyntaxError, NameError,
TypeError, ValueError)` versus the catch-all `Exception`.  Each carries
`str(e)`. -/
inductive PyExc where
  | importError (msg : String)
  | syntaxError (msg : String)
  | nameError (msg : String)
  | typeError (msg : String)
  | valueError (msg : String)
  | otherExc (msg : String)

/-- `str(e)` of an exception. -/
def excMessage : PyExc → String
  | .importError m => m
  | .syntaxError m => m
  | .nameError m => m
  | .typeError m => m
  | .valueError m => m
  | .otherExc m => m

/-- Whether the exception matches the tuple
`(ImportError, SyntaxError, NameError, TypeError, ValueError)` of the first
`except` clause in `run_python_repl`. -/
def isExpectedExc : PyExc → Bool
  | .importError _ => true
  | .syntaxError _ => true
  | .nameError _ => true
  | .typeError _ => true
  | .valueError _ => true
  | .otherExc _ => false

/-- A Python dict with string keys, in insertion order. -/
abbrev PyDict := List (String × PyVal)

/-- `d[k]`, returning `none` when absent (Python: `d.get(k)`). -/
def dictGet : PyDict → String → Option PyVal
  | [], _ => Option.none
  | (k0, v0) :: rest, k => if k0 = k then some v0 else dictGet rest k

/-- `d[k] = v`: overwrite in place when the key exists, else append
(Python dicts keep the original position of an overwritten key). -/
def dictSet : PyDict → String → PyVal → PyDict
  | [], k, v => [(k, v)]
  | (k0, v0) :: rest, k, v =>
      if k0 = k then (k0, v) :: rest else (k0, v0) :: dictSet rest k v

/-- `d.update(other)`: set each pair of `other` into `d`, left to right. -/
def dictUpdate (d other : PyDict) : PyDict :=
  other.foldl (fun acc p => dictSet acc p.1 p.2) d

/-- The keys of a dict, in order. -/
def dictKeys (d : PyDict) : List String := d.map Prod.fst

/-- The `global_imports` argument of `get_globals`: typed
`Union[str, List[str]]`, but any runtime value can arrive, so a third shape
covers every non-`str`, non-`list` input. -/
inductive GImports where
  | str (s : String)
  | list (xs : List String)
  | other

/-- The external collaborators, modelled as an opaque environment:
`importMod` is `importlib.import_module` (result, or `str(e)` of the
`ImportError` it raises), `literalEval` is `ast.literal_eval` (result, or
`str(e)` of whatever it raises), `replRun` is
`PythonREPL(_globals=ctx).run(code)` (captured stdout text, or a raised
exception). -/
structure Env where
  importMod : String → Except String PyVal
  literalEval : String → Except String PyVal
  replRun : String → PyDict → Except PyExc String

/-- ASCII whitespace, as Python's `str.strip` treats it. -/
def isWS (c : Char) : Bool :=
  c = ' ' || c = '\t' || c = '\n' || c = '\r' || c = '\x0b' || c = '\x0c'

/-- Drop leading whitespace characters. -/
def dropWS : List Char → List Char
  | [] => []
  | c :: rest => if isWS c then dropWS rest else c :: rest

/-- Python `str.strip()`: drop whitespace from both ends.  (Implemented over
the character list so the kernel can evaluate it; `String.trim` itself does
not reduce definitionally.) -/
def pyStrip (s : String) : String :=
  String.mk ((dropWS ((dropWS s.data).reverse)).reverse)

/-- Python `s.split(",")`: split at every comma, keeping empty pieces. -/
def splitCommaAux : List Char → List Char → List String
  | [], cur => [String.mk cur.reverse]
  | c :: rest, cur =>
      if c = ',' then String.mk cur.reverse :: splitCommaAux rest []
      else splitCommaAux rest (c :: cur)

/-- Python `s.split(",")` on a whole string. -/
def splitComma (s : String) : List String :=
  splitCommaAux s.data []

/-- `[module.strip() for module in global_imports.split(",") if module.strip()]`. -/
def splitImports (s : String) : List String :=
  ((splitComma s).map pyStrip).filter (fun m => m ≠ "")

/-- `[module.strip() for module in global_imports if module.strip()]`. -/
def trimImports (xs : List String) : List String :=
  (xs.map pyStrip).filter (fun m => m ≠ "")

/-- Message of the `ImportError` re-raised by `get_globals`:
`f"Could not import module '{module}': {str(e)}"`. -/
def importErrMsg (m cause : String) : String :=
  "Could not import module \x27" ++ m ++ "\x27: " ++ cause

/-- The `for module in modules` loop of `get_globals`, threading the
accumulated `global_dict`: each name is imported and stored under the exact
name given; the first import failure aborts the whole loop with a wrapped
`ImportError`. -/
def importAll (env : Env) : List String → PyDict → Except PyExc PyDict
  | [], acc => .ok acc
  | m :: rest, acc =>
      match env.importMod m with
      | .ok v => importAll env rest (dictSet acc m v)
      | .error cause => .error (.importError (importErrMsg m cause))

/-- `get_globals`: normalize the import names (comma-split a string, trim a
list, `TypeError` on anything else), then import each in order.  Raises
(returns `.error`) on the first failure; the outer `except Exception` only
logs and re-raises, so it does not change the result. -/
def get_globals (env : Env) (global_imports : GImports) : Except PyExc PyDict :=
  match global_imports with
  | .str s => importAll env (splitImports s) []
  | .list xs => importAll env (trimImports xs) []
  | .other => .error (.typeError "global_imports must be either a string or a list")

/-- Lines 125-130 of `run_python_repl`: inject scalar variables from the
`params` input.  A list contributes each of its dict items via `update`
(non-dict items are skipped); a dict is applied directly; any other shape
contributes nothing — there is no `else` branch. -/
def injectScalars (g : PyDict) (params : PyVal) : PyDict :=
  match params with
  | .list items =>
      items.foldl
        (fun acc it =>
          match it with
          | .dict d => dictUpdate acc d
          | _ => acc) g
  | .dict d => dictUpdate g d
  | _ => g

/-- Message of the `ValueError` raised when the parsed literal is not a dict. -/
def validationMsg : String :=
  "[Validation Error] Parsed dynamic_variable is not a dictionary."

/-- Message of the `ValueError` raised by the `except Exception` handler of
the literal-parsing block: `f"[Parsing Error] Failed to parse
dynamic_variable: {str(e)}"`. -/
def parseErrMsg (cause : String) : String :=
  "[Parsing Error] Failed to parse dynamic_variable: " ++ cause

/-- Lines 133-141 of `run_python_repl`: strip the `dynamic_variable` string;
when non-empty, `ast.literal_eval` it.  A non-dict parse result raises the
validation `ValueError` — but that raise happens inside the `try`, so the
surrounding `except Exception` catches it too and re-wraps its message in the
parsing-error `ValueError`, exactly as it does for a genuine parse failure. -/
def injectDynamic (env : Env) (g : PyDict) (dynamic_variable : String) :
    Except PyExc PyDict :=
  if pyStrip dynamic_variable = "" then .ok g
  else
    match env.literalEval (pyStrip dynamic_variable) with
    | .ok (.dict d) => .ok (dictUpdate g d)
    | .ok _ => .error (.valueError (parseErrMsg validationMsg))
    | .error e => .error (.valueError (parseErrMsg e))

/-- Lines 122-143 of `run_python_repl`: build the evaluation context by
layering the imported modules, the scalar params, the parsed dynamic
variable, and finally `globals_["params"] = self.params` — the raw `params`
input value, stored last. -/
def build_globals (env : Env) (global_imports : GImports) (params : PyVal)
    (dynamic_variable : String) : Except PyExc PyDict :=
  match get_globals env global_imports with
  | .error e => .error e
  | .ok g =>
      match injectDynamic env (injectScalars g params) dynamic_variable with
      | .error e => .error e
      | .ok g2 => .ok (dictSet g2 "params" params)

/-- The component's result `Data`: either `{"result": text}` or
`{"error": message}`. -/
inductive ReplData where
  | result (s : String)
  | error (msg : String)
deriving DecidableEq

/-- The body of the `try` block of `run_python_repl`: build the context, run
the code through the REPL, and right there compute
`result.strip() if result else ""` as the success payload. -/
def repl_body (env : Env) (global_imports : GImports) (params : PyVal)
    (dynamic_variable python_code : String) : Except PyExc ReplData :=
  match build_globals env global_imports params dynamic_variable with
  | .error e => .error e
  | .ok g =>
      match env.replRun python_code g with
      | .error e => .error e
      | .ok result => .ok (.result (if result ≠ "" then pyStrip result else ""))

/-- `run_python_repl`: the entire body is wrapped in
`except (ImportError, SyntaxError, NameError, TypeError, ValueError)` and
`except Exception`, each of which returns an error-payload `Data` — the
method never lets an exception escape. -/
def run_python_repl (env : Env) (global_imports : GImports) (params : PyVal)
    (dynamic_variable python_code : String) : ReplData :=
  match repl_body env global_imports params dynamic_variable python_code with
  | .ok d => d
  | .error e =>
      if isExpectedExc e then
        .error ("[Execution Error] " ++ excMessage e)
      else
        .error ("[Unexpected Error] " ++ excMessage e)

/-- Python's `str.rstrip()`, written from the spec's words ("right-trimmed")
to compare against the source's `result.strip()`. -/
def rstripSpec (s : String) : String :=
  String.mk ((dropWS s.data.reverse).reverse)

/-- Take the first option that is populated (layer precedence on lookup). -/
def chooseO (a b : Option PyVal) : Option PyVal :=
  match a with
  | some v => some v
  | Option.none => b

theorem dictKeys_cons (k0 : String) (v0 : PyVal) (tl : PyDict) :
    dictKeys ((k0, v0) :: tl) = k0 :: dictKeys tl := rfl

theorem dictGet_dictSet (d : PyDict) (k : String) (v : PyVal) (a : String) :
    dictGet (dictSet d k v) a = if k = a then some v else dictGet d a := by
  induction d with
  | nil =>
      simp [dictSet, dictGet]
  | cons hd tl ih =>
      obtain ⟨k0, v0⟩ := hd
      by_cases h0 : k0 = k
      · subst h0
        by_cases ha : k0 = a
        · subst ha
          simp [dictSet, dictGet]
        · simp [dictSet, dictGet, ha]
      · by_cases ha : k0 = a
        · subst ha
          have hx : ¬ (k = k0) := fun h => h0 h.symm
          simp [dictSet, dictGet, h0, hx]
        · simp [dictSet, dictGet, h0, ha, ih]

theorem dictGet_eq_none_of_not_mem (d : PyDict) (k : String)
    (h : k ∉ dictKeys d) : dictGet d k = Option.none := by
  induction d with
  | nil => rfl
  | cons hd tl ih =>
      obtain ⟨k0, v0⟩ := hd
      rw [dictKeys_cons, List.mem_cons] at h
      push_neg at h
      have h1 : ¬ (k0 = k) := fun hk => h.1 hk.symm
      simp only [dictGet, if_neg h1]
      exact ih h.2

theorem dictGet_dictUpdate (d other : PyDict) (k : String)
    (h : (dictKeys other).Nodup) :
    dictGet (dictUpdate d other) k = chooseO (dictGet other k) (dictGet d k) := by
  induction other generalizing d with
  | nil => simp [dictUpdate, dictGet, chooseO]
  | cons hd tl ih =>
      obtain ⟨k0, v0⟩ := hd
      rw [dictKeys_cons, List.nodup_cons] at h
      have step : dictUpdate d ((k0, v0) :: tl) = dictUpdate (dictSet d k0 v0) tl := rfl
      rw [step, ih (dictSet d k0 v0) h.2]
      by_cases hk : k0 = k
      · subst hk
        have htl : dictGet tl k0 = Option.none :=
          dictGet_eq_none_of_not_mem tl k0 h.1
        simp [dictGet, htl, chooseO, dictGet_dictSet]
      · simp [dictGet, hk, chooseO, dictGet_dictSet]

theorem mem_dictKeys_dictSet (d : PyDict) (k : String) (v : PyVal) (a : String) :
    a ∈ dictKeys (dictSet d k v) ↔ a = k ∨ a ∈ dictKeys d := by
  induction d with
  | nil => simp [dictSet, dictKeys]
  | cons hd tl ih =>
      obtain ⟨k0, v0⟩ := hd
      by_cases h0 : k0 = k
      · subst h0
        have hset : dictSet ((k0, v0) :: tl) k0 v = (k0, v) :: tl := by
          simp [dictSet]
        rw [hset, dictKeys_cons, dictKeys_cons]
        simp only [List.mem_cons]
        tauto
      · have hset : dictSet ((k0, v0) :: tl) k v = (k0, v0) :: dictSet tl k v := by
          simp [dictSet, h0]
        rw [hset, dictKeys_cons, dictKeys_cons]
        simp only [List.mem_cons, ih]
        tauto

theorem importAll_ok (env : Env) (mods : List String) (acc : PyDict)
    (h : ∀ m ∈ mods, ∃ v, env.importMod m = .ok v) :
    ∃ d, importAll env mods acc = .ok d ∧
      ∀ k, k ∈ dictKeys d ↔ (k ∈ mods ∨ k ∈ dictKeys acc) := by
  induction mods generalizing acc with
  | nil =>
      exact ⟨acc, rfl, fun k => by simp⟩
  | cons m rest ih =>
      obtain ⟨v, hv⟩ := h m (List.mem_cons_self m rest)
      have hrest : ∀ x ∈ rest, ∃ w, env.importMod x = .ok w :=
        fun x hx => h x (List.mem_cons_of_mem m hx)
      obtain ⟨d, hd, hk⟩ := ih (dictSet acc m v) hrest
      refine ⟨d, ?_, fun k => ?_⟩
      · simp only [importAll, hv]
        exact hd
      · rw [hk k, mem_dictKeys_dictSet, List.mem_cons]
        tauto

theorem importAll_err (env : Env) (mods : List String) (acc : PyDict)
    (h : ∃ m ∈ mods, ∃ c, env.importMod m = .error c) :
    ∃ m c, m ∈ mods ∧ env.importMod m = .error c ∧
      importAll env mods acc = .error (.importError (importErrMsg m c)) := by
  induction mods generalizing acc with
  | nil =>
      obtain ⟨m, hm, _⟩ := h
      exact absurd hm (List.not_mem_nil m)
  | cons m0 rest ih =>
      cases hv : env.importMod m0 with
      | error c =>
          refine ⟨m0, c, List.mem_cons_self m0 rest, hv, ?_⟩
          simp only [importAll, hv]
      | ok v =>
          have hr : ∃ m ∈ rest, ∃ c, env.importMod m = .error c := by
            obtain ⟨m, hm, c, hc⟩ := h
            rcases List.mem_cons.mp hm with rfl | hm2
            · rw [hv] at hc
              cases hc
            · exact ⟨m, hm2, c, hc⟩
          obtain ⟨m, c, hm, hc, he⟩ := ih (dictSet acc m0 v) hr
          refine ⟨m, c, List.mem_cons_of_mem m0 hm, hc, ?_⟩
          simp only [importAll, hv]
          exact he

/-- A concrete instantiation of the external collaborators, used to witness
the theorems: module `x` and `math` import to opaque handles, any other name
fails; the literal strings the witnesses use parse the way `ast.literal_eval`
would; the REPL prints nothing. -/
def envDemo : Env where
  importMod := fun m =>
    if m = "x" then .ok (.module "x")
    else if m = "math" then .ok (.module "math")
    else .error ("No module named " ++ m)
  literalEval := fun s =>
    if s = "\x7b\x27x\x27: 2\x7d" then .ok (.dict [("x", .int 2)])
    else if s = "[1,2,3]" then .ok (.list [.int 1, .int 2, .int 3])
    else .error ("invalid syntax (<unknown>, line 1)")
  replRun := fun _ _ => .ok ""

/-- C4: for every comma-separated string whose trimmed, non-empty entries
all import successfully, `get_globals` returns a mapping whose key set equals the
set of those entries, and `get_globals` on the empty string returns the empty
mapping without failing. -/
theorem C4_get_globals_keys (env : Env) (s : String)
    (h : ∀ m ∈ splitImports s, ∃ v, env.importMod m = .ok v) :
    (∃ d, get_globals env (.str s) = .ok d ∧
        ∀ k, k ∈ dictKeys d ↔ k ∈ splitImports s) ∧
      get_globals env (.str "") = .ok [] := by
  constructor
  · obtain ⟨d, hd, hk⟩ := importAll_ok env (splitImports s) [] h
    refine ⟨d, hd, fun k => ?_⟩
    rw [hk k]
    simp [dictKeys]
  · rfl

/-- Closed witness for C4 at the import list `"x, math"`. -/
theorem C4_get_globals_keys_witness :
    (∃ d, get_globals envDemo (.str "x, math") = .ok d ∧
        ∀ k, k ∈ dictKeys d ↔ k ∈ splitImports "x, math") ∧
      get_globals envDemo (.str "") = .ok [] :=
  C4_get_globals_keys envDemo "x, math"
    (by
      intro m hm
      rw [show splitImports "x, math" = ["x", "math"] from rfl] at hm
      rcases List.mem_cons.mp hm with rfl | hm2
      · exact ⟨.module "x", rfl⟩
      · rcases List.mem_cons.mp hm2 with rfl | hm3
        · exact ⟨.module "math", rfl⟩
        · exact absurd hm3 (List.not_mem_nil m))

/-- C5: if any trimmed, non-empty entry of the import list fails to import,
`get_globals` fails as a whole with the wrapped `ImportError` naming the
offending module and the underlying cause — no partial mapping is returned. -/
theorem C5_get_globals_all_or_nothing (env : Env) (s : String)
    (h : ∃ m ∈ splitImports s, ∃ c, env.importMod m = .error c) :
    ∃ m c, m ∈ splitImports s ∧ env.importMod m = .error c ∧
      get_globals env (.str s) = .error (.importError (importErrMsg m c)) :=
  importAll_err env (splitImports s) [] h

/-- Closed witness for C5 at the import list `"not_a_real_module_xyz"`. -/
theorem C5_get_globals_all_or_nothing_witness :
    ∃ m c, m ∈ splitImports "not_a_real_module_xyz" ∧
      envDemo.importMod m = .error c ∧
      get_globals envDemo (.str "not_a_real_module_xyz") =
        .error (.importError (importErrMsg m c)) :=
  C5_get_globals_all_or_nothing envDemo "not_a_real_module_xyz"
    ⟨"not_a_real_module_xyz", by decide,
      "No module named not_a_real_module_xyz", rfl⟩

theorem build_globals_ok_inv (env : Env) (gi : GImports) (params : PyVal)
    (dyn : String) (ctx : PyDict)
    (h : build_globals env gi params dyn = .ok ctx) :
    ∃ g g2, get_globals env gi = .ok g ∧
      injectDynamic env (injectScalars g params) dyn = .ok g2 ∧
      ctx = dictSet g2 "params" params := by
  unfold build_globals at h
  split at h
  · cases h
  · rename_i g hg
    split at h
    · cases h
    · rename_i g2 hg2
      exact ⟨g, g2, hg, hg2, (Except.ok.injEq _ _ |>.mp h).symm⟩

theorem run_python_repl_of_body_err (env : Env) (gi : GImports) (params : PyVal)
    (dyn code : String) (e : PyExc)
    (h : repl_body env gi params dyn code = .error e) :
    run_python_repl env gi params dyn code =
      .error ((if isExpectedExc e then "[Execution Error] " else "[Unexpected Error] ") ++
        excMessage e) := by
  unfold run_python_repl
  rw [h]
  cases e <;> rfl

/-- C2 counterexample: at a wrong-typed import list (`GImports.other`) and at
an unresolvable module name, the `try` body of `run_python_repl` raises
(`TypeError` / wrapped `ImportError`), but `run_python_repl` itself catches
both through its own `except` clauses and returns an error payload — it does
not let the raised error propagate to the caller, contrary to the claim. -/
theorem C2_counterexample :
    repl_body envDemo GImports.other PyVal.none "" "" =
      .error (.typeError "global_imports must be either a string or a list") ∧
    run_python_repl envDemo GImports.other PyVal.none "" "" =
      .error ("[Execution Error] global_imports must be either a string or a list") ∧
    repl_body envDemo (GImports.str "nope") PyVal.none "" "" =
      .error (.importError (importErrMsg "nope" "No module named nope")) ∧
    run_python_repl envDemo (GImports.str "nope") PyVal.none "" "" =
      .error ("[Execution Error] " ++ importErrMsg "nope" "No module named nope") := by
  refine ⟨rfl, rfl, ?_, ?_⟩ <;> rfl

/-- C2 amended: no invocation of `run_python_repl` raises.  Every failure of
any stage — configuration-shape errors and module-resolution errors included —
is caught by the method's two `except` clauses and returned as an error
payload, prefixed `[Execution Error]` for the five expected exception kinds
and `[Unexpected Error]` for anything else. -/
theorem C2_amended (env : Env) (gi : GImports) (params : PyVal)
    (dyn code : String) (e : PyExc)
    (h : repl_body env gi params dyn code = .error e) :
    run_python_repl env gi params dyn code =
      .error ((if isExpectedExc e then "[Execution Error] " else "[Unexpected Error] ") ++
        excMessage e) :=
  run_python_repl_of_body_err env gi params dyn code e h

/-- Closed witness for the amended C2 at the wrong-typed import list. -/
theorem C2_amended_witness :
    run_python_repl envDemo GImports.other PyVal.none "" "" =
      .error ((if isExpectedExc
          (.typeError "global_imports must be either a string or a list")
        then "[Execution Error] " else "[Unexpected Error] ") ++
        excMessage (.typeError "global_imports must be either a string or a list")) :=
  C2_amended envDemo GImports.other PyVal.none "" ""
    (.typeError "global_imports must be either a string or a list") rfl

/-- C3 counterexample: with the scalar params given as the one-element list
`[{"a": 1}]`, the normalized scalars mapping is `{"a": 1}`, but the built
context's reserved `"params"` key holds the raw list value
(`globals_["params"] = self.params`), not that normalized mapping. -/
theorem C3_counterexample :
    build_globals envDemo (.str "") (.list [.dict [("a", .int 1)]]) "" =
      .ok [("a", .int 1), ("params", .list [.dict [("a", .int 1)]])] ∧
    dictGet [("a", .int 1), ("params", .list [.dict [("a", .int 1)]])] "params" ≠
      some (.dict [("a", .int 1)]) := by
  refine ⟨rfl, ?_⟩
  intro h
  rw [show dictGet [("a", .int 1), ("params", .list [.dict [("a", .int 1)]])] "params" =
        some (.list [.dict [("a", .int 1)]]) from rfl] at h
  exact PyVal.noConfusion (Option.some.injEq _ _ |>.mp h)

/-- C3 amended: whenever context construction succeeds, the reserved key
`"params"` is assigned last (the context is literally `dictSet g "params"
params` for the layered `g`) and holds the raw `params` input value, winning
over any earlier layer's `"params"` key; it is the normalized scalars mapping
only when the input already was a single mapping. -/
theorem C3_params_assigned_last (env : Env) (gi : GImports) (params : PyVal)
    (dyn : String) (ctx : PyDict)
    (h : build_globals env gi params dyn = .ok ctx) :
    (∃ g, ctx = dictSet g "params" params) ∧
      dictGet ctx "params" = some params := by
  obtain ⟨g, g2, _, _, hctx⟩ := build_globals_ok_inv env gi params dyn ctx h
  subst hctx
  refine ⟨⟨g2, rfl⟩, ?_⟩
  rw [dictGet_dictSet]
  simp

/-- Closed witness for the amended C3: the literal injects an `x` key and the
scalar list is degenerate, yet `"params"` holds the raw input. -/
theorem C3_params_assigned_last_witness :
    (∃ g, [("x", PyVal.int 2), ("params", PyVal.dict [("x", PyVal.int 1)])] =
        dictSet g "params" (PyVal.dict [("x", PyVal.int 1)])) ∧
      dictGet [("x", PyVal.int 2), ("params", PyVal.dict [("x", PyVal.int 1)])]
        "params" = some (PyVal.dict [("x", PyVal.int 1)]) :=
  C3_params_assigned_last envDemo (.str "x") (PyVal.dict [("x", PyVal.int 1)])
    "\x7b\x27x\x27: 2\x7d" _ rfl

/-- C10: every invocation that reaches the execution stage has `"params"` in
the evaluation context — whatever the shape of the `params` input, including
`None` or shapes that contributed nothing to the scalar layer — and its value
is the raw `params` input value. -/
theorem C10_params_key_always_present (env : Env) (gi : GImports)
    (params : PyVal) (dyn : String) (ctx : PyDict)
    (h : build_globals env gi params dyn = .ok ctx) :
    "params" ∈ dictKeys ctx ∧ dictGet ctx "params" = some params := by
  obtain ⟨g, g2, _, _, hctx⟩ := build_globals_ok_inv env gi params dyn ctx h
  subst hctx
  constructor
  · rw [mem_dictKeys_dictSet]
    exact Or.inl rfl
  · rw [dictGet_dictSet]
    simp

/-- Closed witness for C10 with the `params` input absent (`None`). -/
theorem C10_params_key_always_present_witness :
    "params" ∈ dictKeys [("params", PyVal.none)] ∧
      dictGet [("params", PyVal.none)] "params" = some PyVal.none :=
  C10_params_key_always_present envDemo (.str "") PyVal.none "" _ rfl

theorem injectDynamic_ok_dict (env : Env) (g : PyDict) (dyn : String)
    (p : PyDict) (hne : pyStrip dyn ≠ "")
    (hlit : env.literalEval (pyStrip dyn) = .ok (.dict p)) :
    injectDynamic env g dyn = .ok (dictUpdate g p) := by
  unfold injectDynamic
  rw [if_neg hne, hlit]

/-- C1: when every stage succeeds, the evaluation context is the layering of
the module map, then the scalar params, then the parsed `dynamic_variable`
mapping, then the reserved `"params"` key: a lookup of any other key takes
the parsed mapping's value first, then the scalars, then the modules — later
layers overwrite earlier keys — and `"params"` holds the scalars exactly as
given.  (The witness instantiates the claim's scenario of modules `{x: M}`,
scalars `{x: 1}`, literal `{x: 2}`, where the final `x` is `2`.) -/
theorem C1_context_layering (env : Env) (gi : GImports) (s p m ctx : PyDict)
    (dyn : String)
    (hm : get_globals env gi = .ok m)
    (hne : pyStrip dyn ≠ "")
    (hlit : env.literalEval (pyStrip dyn) = .ok (.dict p))
    (hctx : build_globals env gi (.dict s) dyn = .ok ctx)
    (hs : (dictKeys s).Nodup) (hp : (dictKeys p).Nodup) :
    (∀ k, k ≠ "params" →
        dictGet ctx k =
          chooseO (dictGet p k) (chooseO (dictGet s k) (dictGet m k))) ∧
      dictGet ctx "params" = some (.dict s) := by
  obtain ⟨g, g2, hg, hg2, hsplit⟩ := build_globals_ok_inv env gi (.dict s) dyn ctx hctx
  rw [hm] at hg
  have hgm : g = m := ((Except.ok.injEq _ _).mp hg).symm
  subst hgm
  have hscal : injectScalars g (.dict s) = dictUpdate g s := rfl
  rw [hscal, injectDynamic_ok_dict env (dictUpdate g s) dyn p hne hlit] at hg2
  have hg2e : g2 = dictUpdate (dictUpdate g s) p := ((Except.ok.injEq _ _).mp hg2).symm
  subst hg2e
  subst hsplit
  constructor
  · intro k hk
    rw [dictGet_dictSet]
    rw [if_neg (fun h => hk h.symm)]
    rw [dictGet_dictUpdate _ _ _ hp, dictGet_dictUpdate _ _ _ hs]
  · rw [dictGet_dictSet]
    simp

/-- Closed witness for C1: modules `{"x": M}`, scalars `{"x": 1}`, literal
`"{'x': 2}"`; the lookup of `"x"` in the final context follows the layer
precedence (and evaluates to `2`), and `"params"` holds the scalars. -/
theorem C1_context_layering_witness :
    (∀ k, k ≠ "params" →
        dictGet [("x", PyVal.int 2), ("params", PyVal.dict [("x", PyVal.int 1)])] k =
          chooseO (dictGet [("x", PyVal.int 2)] k)
            (chooseO (dictGet [("x", PyVal.int 1)] k)
              (dictGet [("x", PyVal.module "x")] k))) ∧
      dictGet [("x", PyVal.int 2), ("params", PyVal.dict [("x", PyVal.int 1)])]
        "params" = some (.dict [("x", PyVal.int 1)]) :=
  C1_context_layering envDemo (.str "x") [("x", PyVal.int 1)] [("x", PyVal.int 2)]
    [("x", PyVal.module "x")] _ "\x7b\x27x\x27: 2\x7d" rfl (by decide) rfl rfl
    (by decide) (by decide)

/-- C6 counterexample: the literal `"[1,2,3]"` parses successfully to a
non-mapping, and the code first raises the validation `ValueError` — but that
raise happens inside the `try` whose `except Exception` handler wraps it, so
the surfaced failure is the same `[Parsing Error]`-prefixed `ValueError` kind
as a genuine parse failure (here `"{invalid syntax"`), with the validation
text merely embedded in the message: the two failure kinds are not distinct
in the result, contrary to the claim. -/
theorem C6_counterexample :
    injectDynamic envDemo [] "[1,2,3]" =
      .error (.valueError (parseErrMsg validationMsg)) ∧
    injectDynamic envDemo [] "\x7binvalid syntax" =
      .error (.valueError (parseErrMsg "invalid syntax (<unknown>, line 1)")) ∧
    run_python_repl envDemo (.str "") PyVal.none "[1,2,3]" "" =
      .error ("[Execution Error] " ++ parseErrMsg validationMsg) :=
  ⟨rfl, rfl, rfl⟩

/-- C6 amended: with a non-empty trimmed `dynamic_variable`, a successful
parse to a non-mapping and a parse failure both surface as a `ValueError`
with the `[Parsing Error]` wrapper — the non-mapping case carries the
embedded validation message, a parse failure carries the original message —
so the two cases are distinguishable only through the message text, not as
distinct error kinds. -/
theorem C6_dynamic_variable_failures (env : Env) (g : PyDict)
    (dyn1 dyn2 : String) (v : PyVal) (e : String)
    (hne1 : pyStrip dyn1 ≠ "")
    (hok : env.literalEval (pyStrip dyn1) = .ok v)
    (hnd : ∀ d, v ≠ PyVal.dict d)
    (hne2 : pyStrip dyn2 ≠ "")
    (herr : env.literalEval (pyStrip dyn2) = .error e) :
    injectDynamic env g dyn1 = .error (.valueError (parseErrMsg validationMsg)) ∧
    injectDynamic env g dyn2 = .error (.valueError (parseErrMsg e)) := by
  constructor
  · unfold injectDynamic
    rw [if_neg hne1, hok]
    cases v with
    | dict d => exact absurd rfl (hnd d)
    | none => rfl
    | int n => rfl
    | str s => rfl
    | module n => rfl
    | list xs => rfl
  · unfold injectDynamic
    rw [if_neg hne2, herr]

/-- Closed witness for the amended C6 at the literals `"[1,2,3]"` and
`"{invalid syntax"`. -/
theorem C6_dynamic_variable_failures_witness :
    injectDynamic envDemo [] "[1,2,3]" =
      .error (.valueError (parseErrMsg validationMsg)) ∧
    injectDynamic envDemo [] "\x7binvalid syntax" =
      .error (.valueError (parseErrMsg "invalid syntax (<unknown>, line 1)")) :=
  C6_dynamic_variable_failures envDemo [] "[1,2,3]" "\x7binvalid syntax"
    (.list [.int 1, .int 2, .int 3]) "invalid syntax (<unknown>, line 1)"
    (by decide) rfl (fun d h => PyVal.noConfusion h) (by decide) rfl

/-- C7 counterexample: the scalar-params shapes `{"a": 1}` and `[{"a": 1}]`
do not yield identical contexts — the reserved `"params"` key stores the raw
input, so the two contexts differ there — and a shape that is neither a
mapping nor a list (here the bare number `5`) does not fail at all: it is
silently ignored and the invocation proceeds. -/
theorem C7_counterexample :
    build_globals envDemo (.str "") (.int 5) "" = .ok [("params", .int 5)] ∧
    build_globals envDemo (.str "") (.dict [("a", .int 1)]) "" =
      .ok [("a", .int 1), ("params", .dict [("a", .int 1)])] ∧
    build_globals envDemo (.str "") (.list [.dict [("a", .int 1)]]) "" =
      .ok [("a", .int 1), ("params", .list [.dict [("a", .int 1)]])] ∧
    ([("a", .int 1), ("params", .dict [("a", .int 1)])] : PyDict) ≠
      [("a", .int 1), ("params", .list [.dict [("a", .int 1)]])] := by
  refine ⟨rfl, rfl, rfl, ?_⟩
  intro h
  have h2 := (List.cons.injEq _ _ _ _).mp h |>.2
  have h3 := (List.cons.injEq _ _ _ _).mp h2 |>.1
  have h4 := (Prod.mk.injEq _ _ _ _).mp h3 |>.2
  exact PyVal.noConfusion h4

/-- C7 amended: a single mapping and the singleton list holding that mapping
inject the same scalar layer, so the two contexts agree on every key except
the reserved `"params"`, which stores the raw input and therefore differs;
and a scalar-params input of any other shape is silently skipped (the scalar
layer is the identity), not rejected with a configuration error. -/
theorem C7_scalar_shapes (env : Env) (gi : GImports) (dyn : String)
    (d : PyDict) (c1 c2 : PyDict)
    (h1 : build_globals env gi (.dict d) dyn = .ok c1)
    (h2 : build_globals env gi (.list [.dict d]) dyn = .ok c2) :
    (∀ k, k ≠ "params" → dictGet c1 k = dictGet c2 k) ∧
      dictGet c1 "params" = some (.dict d) ∧
      dictGet c2 "params" = some (.list [.dict d]) ∧
      ∀ (g : PyDict) (p : PyVal), (∀ dd, p ≠ PyVal.dict dd) →
        (∀ xs, p ≠ PyVal.list xs) → injectScalars g p = g := by
  obtain ⟨g, g2, hg, hd1, hc1⟩ := build_globals_ok_inv env gi (.dict d) dyn c1 h1
  obtain ⟨g', g2', hg', hd2, hc2⟩ :=
    build_globals_ok_inv env gi (.list [.dict d]) dyn c2 h2
  rw [hg] at hg'
  have hgg : g' = g := ((Except.ok.injEq _ _).mp hg').symm
  rw [hgg] at hd2
  have hsame : injectScalars g (.list [.dict d]) = injectScalars g (.dict d) := rfl
  rw [hsame, hd1] at hd2
  have hg22 : g2' = g2 := ((Except.ok.injEq _ _).mp hd2).symm
  rw [hg22] at hc2
  subst hc1
  subst hc2
  refine ⟨?_, ?_, ?_, ?_⟩
  · intro k hk
    rw [dictGet_dictSet, dictGet_dictSet]
    rw [if_neg (fun h => hk h.symm), if_neg (fun h => hk h.symm)]
  · rw [dictGet_dictSet]
    simp
  · rw [dictGet_dictSet]
    simp
  · intro g p hnd hnl
    cases p with
    | dict dd => exact absurd rfl (hnd dd)
    | list xs => exact absurd rfl (hnl xs)
    | none => rfl
    | int n => rfl
    | str s => rfl
    | module n => rfl

/-- Closed witness for the amended C7 at `{"a": 1}` versus `[{"a": 1}]`. -/
theorem C7_scalar_shapes_witness :
    (∀ k, k ≠ "params" →
        dictGet [("a", PyVal.int 1), ("params", PyVal.dict [("a", PyVal.int 1)])] k =
          dictGet [("a", PyVal.int 1),
            ("params", PyVal.list [.dict [("a", PyVal.int 1)]])] k) ∧
      dictGet [("a", PyVal.int 1), ("params", PyVal.dict [("a", PyVal.int 1)])]
        "params" = some (.dict [("a", PyVal.int 1)]) ∧
      dictGet [("a", PyVal.int 1), ("params", PyVal.list [.dict [("a", PyVal.int 1)]])]
        "params" = some (.list [.dict [("a", PyVal.int 1)]]) ∧
      ∀ (g : PyDict) (p : PyVal), (∀ dd, p ≠ PyVal.dict dd) →
        (∀ xs, p ≠ PyVal.list xs) → injectScalars g p = g :=
  C7_scalar_shapes envDemo (.str "") "" [("a", PyVal.int 1)] _ _ rfl rfl

/-- A REPL that writes `" hi"` (leading space) to standard output. -/
def envLead : Env :=
  { envDemo with replRun := fun _ _ => .ok " hi" }

/-- A REPL whose execution raises
`NameError: name 'undefined_name' is not defined`. -/
def envName : Env :=
  { envDemo with
    replRun := fun _ _ =>
      .error (.nameError "name \x27undefined_name\x27 is not defined") }

theorem repl_body_ok_run (env : Env) (gi : GImports) (params : PyVal)
    (dyn code : String) (g : PyDict) (r : String)
    (hg : build_globals env gi params dyn = .ok g)
    (hr : env.replRun code g = .ok r) :
    repl_body env gi params dyn code =
      .ok (.result (if r ≠ "" then pyStrip r else "")) := by
  unfold repl_body
  split
  · rename_i e heq
    rw [hg] at heq
    exact Except.noConfusion heq
  · rename_i g2 heq
    rw [hg] at heq
    obtain rfl := (Except.ok.injEq _ _).mp heq
    rw [hr]

theorem repl_body_err_run (env : Env) (gi : GImports) (params : PyVal)
    (dyn code : String) (g : PyDict) (e : PyExc)
    (hg : build_globals env gi params dyn = .ok g)
    (hr : env.replRun code g = .error e) :
    repl_body env gi params dyn code = .error e := by
  unfold repl_body
  split
  · rename_i e2 heq
    rw [hg] at heq
    exact Except.noConfusion heq
  · rename_i g2 heq
    rw [hg] at heq
    obtain rfl := (Except.ok.injEq _ _).mp heq
    rw [hr]

/-- C8 counterexample: when the program writes `" hi"` to standard output,
the right-trimmed text is `" hi"` (unchanged), but the success payload is
`"hi"` — the code applies `str.strip()`, which removes the leading whitespace
too, contrary to the claim's "right-trimmed". -/
theorem C8_counterexample :
    run_python_repl envLead (.str "") PyVal.none "" "code" = .result "hi" ∧
    rstripSpec " hi" = " hi" ∧
    ("hi" : String) ≠ " hi" := by
  refine ⟨rfl, rfl, by decide⟩

/-- C8 amended: on successful execution the success payload is the captured
standard-output text stripped of whitespace on BOTH ends (`result.strip()`),
and when execution produces no output the payload is the empty string. -/
theorem C8_success_payload (env : Env) (gi : GImports) (params : PyVal)
    (dyn code : String) (g : PyDict) (out : String)
    (hg : build_globals env gi params dyn = .ok g)
    (hr : env.replRun code g = .ok out) :
    run_python_repl env gi params dyn code = .result (pyStrip out) ∧
      (out = "" → run_python_repl env gi params dyn code = .result "") := by
  have hb : repl_body env gi params dyn code =
      .ok (.result (if out ≠ "" then pyStrip out else "")) :=
    repl_body_ok_run env gi params dyn code g out hg hr
  constructor
  · unfold run_python_repl
    rw [hb]
    by_cases hout : out = ""
    · subst hout
      rfl
    · rw [if_pos hout]
  · intro hout
    subst hout
    unfold run_python_repl
    rw [hb]
    rfl

/-- Closed witness for the amended C8: a run with no output yields the empty
payload. -/
theorem C8_success_payload_witness :
    (run_python_repl envDemo (.str "") PyVal.none "" "" = .result (pyStrip "")) ∧
      ("" = "" → run_python_repl envDemo (.str "") PyVal.none "" "" = .result "") :=
  C8_success_payload envDemo (.str "") PyVal.none "" "" [("params", PyVal.none)]
    "" rfl rfl

/-- C9: when executing the user code raises a `NameError` (an identifier
neither in the context nor a builtin), `run_python_repl` catches it through
the expected-kinds `except` clause and returns the `[Execution Error]` error
payload — it does not raise to the caller. -/
theorem C9_name_error_is_payload (env : Env) (gi : GImports) (params : PyVal)
    (dyn code : String) (g : PyDict) (m : String)
    (hg : build_globals env gi params dyn = .ok g)
    (hr : env.replRun code g = .error (.nameError m)) :
    run_python_repl env gi params dyn code =
      .error ("[Execution Error] " ++ m) := by
  have hb : repl_body env gi params dyn code = .error (.nameError m) :=
    repl_body_err_run env gi params dyn code g (.nameError m) hg hr
  exact run_python_repl_of_body_err env gi params dyn code (.nameError m) hb

/-- Closed witness for C9 at the program `"undefined_name"` with an empty
context. -/
theorem C9_name_error_is_payload_witness :
    run_python_repl envName (.str "") PyVal.none "" "undefined_name" =
      .error ("[Execution Error] " ++ "name \x27undefined_name\x27 is not defined") :=
  C9_name_error_is_payload envName (.str "") PyVal.none "" "undefined_name"
    [("params", PyVal.none)] "name \x27undefined_name\x27 is not defined" rfl rfl
